import Mathlib

/-!
Verification development for the `adiosnetwork` repository.

The repository has two source files:
  * `src/wands/wands.py` — the cache orchestrator `Wands.request`, which splits
    a requested batch of signal names into locally cached and remote ones,
    loads the cached part, notifies a population service, fetches the remote
    part, writes it back, and merges the two mappings;
  * `randomscripts/access_api.py` — the consumer `ADIOSData.__getitem__` and
    the producer `ADIOSServer` of a request / acknowledge / stream negotiation
    protocol over three named ADIOS channels.

Each Python function is embedded as an executable Lean function that returns
an `Except`-style result together with a trace of its externally visible
effects (channel operations, HTTP calls, cache operations).  Python runtime
errors that the source raises (in particular references to names that are
never bound in any enclosing scope) are modelled explicitly as error results.

The cache (`DataCache`, file `src/wands/data_cache.py`) and the remote fetcher
(`WandsWAN`, file `src/wands/wan.py`) are used by `wands.py` but their code is
not among the repository files available here; they are modelled from the
specification's description of `CacheStore` and `RemoteFetcher`.
-/

namespace AdiosNetwork

/-- Python runtime errors that the embedded code can raise. -/
inductive PyErr where
  /-- `NameError`: a referenced name is bound in no enclosing scope. -/
  | nameError (name : String)
  /-- `KeyError`, as raised by `raise KeyError(msg)` or a failed dict lookup. -/
  | keyError (msg : String)
  /-- `ValueError`, e.g. from `response.json()` on a body that is not JSON. -/
  | valueError (msg : String)
  /-- `AttributeError`, e.g. calling `.Shape()` on an invalid inquiry result. -/
  | attributeError (attr : String)
  /-- An exception raised by `requests.post` (e.g. `ConnectionError`). -/
  | requestException (msg : String)
  deriving DecidableEq, Repr

/-- A payload: an n-dimensional numeric array together with its shape. -/
structure Payload where
  data : List Int
  shape : List Nat
  deriving DecidableEq, Repr

/-- A Python `dict` mapping signal names to payloads, modelled as an
association list; `lookup` returns the first binding of a key. -/
abbrev Dict := List (String × Payload)

/-- Dictionary lookup: the first binding of the key, if any. -/
def Dict.lookup (d : Dict) (k : String) : Option Payload :=
  (d.find? (fun p => p.1 == k)).map (fun p => p.2)

/-- Python dict union `a | b`: the keys of both dictionaries, and on any key
present in both the value from `b` (the right operand) wins. -/
def Dict.union (a b : Dict) : Dict :=
  a.filter (fun p => (Dict.lookup b p.1).isNone) ++ b

/-- Modelled from the spec: `CacheStore` (`DataCache`, file
`src/wands/data_cache.py`, which is not among the available sources).  A cache
maps `(filename, name)` pairs to payloads. -/
structure DataCache where
  entries : List ((String × String) × Payload)
  deriving DecidableEq, Repr

/-- The payload cached for `(filename, name)`, if any. -/
def DataCache.lookup (c : DataCache) (filename name : String) : Option Payload :=
  (c.entries.find? (fun e => e.1.1 == filename && e.1.2 == name)).map (fun e => e.2)

/-- Modelled from the spec: `checkAvailability(filename, names) ->
(remoteList, localList)` — an exact partition of `names` into the names not
cached for `filename` (remote) and the names cached for it (local). -/
def DataCache.check_availability (c : DataCache) (filename : String)
    (data_list : List String) : List String × List String :=
  (data_list.filter (fun n => (c.lookup filename n).isNone),
   data_list.filter (fun n => (c.lookup filename n).isSome))

/-- Modelled from the spec: `load(filename, localList) -> mapping` — the
cached payload of every name of `local_list`. -/
def DataCache.load_from_cache (c : DataCache) (filename : String)
    (local_list : List String) : Dict :=
  local_list.filterMap (fun n => (c.lookup filename n).map (fun p => (n, p)))

/-- Modelled from the spec: `write(filename, mapping)` — stores every pair of
the mapping under `filename`, overwriting existing entries. -/
def DataCache.write (c : DataCache) (filename : String) (data_dict : Dict) :
    DataCache :=
  ⟨data_dict.map (fun p => ((filename, p.1), p.2)) ++ c.entries⟩

/-- Modelled from the spec: `RemoteFetcher.fetch` (`WandsWAN.receive`, file
`src/wands/wan.py`, which is not among the available sources).  The remote
source store is an oracle mapping names to payloads; a name the store misses
is simply omitted from the result. -/
def WandsWAN.receive (remoteStore : Dict) (names : List String) : Dict :=
  names.filterMap (fun n => (Dict.lookup remoteStore n).map (fun p => (n, p)))

/-- The response object returned by `requests.post`; `jsonBody = none` models
a response whose `.json()` raises `ValueError`. -/
structure Response where
  status_code : Nat
  jsonBody : Option String
  deriving DecidableEq, Repr

/-- The environment of one `Wands.request` call: the outcome of the
population-notification POST and the remote source store behind
`WandsWAN.receive`. -/
structure WandsEnv where
  postResult : Except PyErr Response
  remoteStore : Dict
  deriving Repr

/-- Externally visible effects of `Wands.request`. -/
inductive WEv where
  | logDebug
  | logInfo
  | checkAvailability (filename : String) (names : List String)
  | loadFromCache (filename : String) (names : List String)
  | post (uri : String) (signals : List String)
  | wanConstruct
  | wanReceive (names : List String)
  | cacheWrite (filename : String)
  deriving DecidableEq, Repr

/-- Does the event belong to the remote path (notification POST, remote-fetch
object construction, remote receive, cache write-back)? -/
def WEv.isRemote : WEv → Bool
  | WEv.post _ _ => true
  | WEv.wanConstruct => true
  | WEv.wanReceive _ => true
  | WEv.cacheWrite _ => true
  | _ => false

/-- Result of one `Wands.request` call: the returned dictionary or the raised
exception, the effect trace, and the cache state when the call ends. -/
structure WandsOutcome where
  result : Except PyErr Dict
  trace : List WEv
  cache : DataCache
  deriving Repr

/-- Embedding of `Wands.request` (`src/wands/wands.py`, lines 39–87).

The translation follows the source line by line:
`logger.debug(...)`; `data_from_remote = {}`;
`remote_list, local_list = self.dataCache.check_availability(...)`;
`data_from_cache = self.dataCache.load_from_cache(...)`; two `logger.info`
calls; then, if `remote_list` is non-empty, `requests.post` (an exception
propagates uncaught), `logger.info(response.status_code)`,
`logger.info(response.json())` (raises `ValueError` when the body is not
JSON), construction of `WandsWAN`, `wandsWAN_obj.receive(remote_list)` and
`self.dataCache.write(...)`.

Line 83 then executes on every path:
`logger.debug(f"Timings:\n check av = \x7btimecheckav-timereq\x7d ...")`.
The names `timecheckav` and `timereq` are bound nowhere — the assignments
`timereq = time()` (line 51) and `timecheckav = time()` (line 59) are inside
comments — so evaluating the f-string raises `NameError: timecheckav` and the
`return data_from_remote | data_from_cache` on line 87 is never reached. -/
def Wands.request (env : WandsEnv) (cache : DataCache) (filename : String)
    (data_list : List String) : WandsOutcome :=
  let t0 : List WEv := [WEv.logDebug]
  let rl := cache.check_availability filename data_list
  let remote_list := rl.1
  let local_list := rl.2
  let _data_from_cache := cache.load_from_cache filename local_list
  let t1 := t0 ++ [WEv.checkAvailability filename data_list,
                   WEv.loadFromCache filename local_list, WEv.logInfo, WEv.logInfo]
  if remote_list.isEmpty then
    -- line 83: f-string references the unbound name `timecheckav`
    ⟨Except.error (PyErr.nameError "timecheckav"), t1, cache⟩
  else
    let t2 := t1 ++ [WEv.post filename remote_list]
    match env.postResult with
    | Except.error e => ⟨Except.error e, t2, cache⟩
    | Except.ok response =>
      let t3 := t2 ++ [WEv.logInfo]
      match response.jsonBody with
      | none => ⟨Except.error (PyErr.valueError "response body is not json"), t3, cache⟩
      | some _ =>
        let t4 := t3 ++ [WEv.logInfo, WEv.wanConstruct]
        let data_from_remote := WandsWAN.receive env.remoteStore remote_list
        let t5 := t4 ++ [WEv.wanReceive remote_list]
        let cache2 := cache.write filename data_from_remote
        let t6 := t5 ++ [WEv.cacheWrite filename]
        -- line 83: f-string references the unbound name `timecheckav`
        ⟨Except.error (PyErr.nameError "timecheckav"), t6, cache2⟩

/-- `adios2.Mode`: the direction a channel is opened in. -/
inductive Mode where
  | Write
  | Read
  deriving DecidableEq, Repr

/-- `adios2.StepStatus`: the result of `BeginStep`. -/
inductive StepStatus where
  | OK
  | EndOfStream
  | NotReady
  deriving DecidableEq, Repr

/-- Channel operations of `access_api.py`, as trace events. -/
inductive CEv where
  | openChannel (name : String) (m : Mode)
  | defineVariable (name : String)
  | inquireVariable (name : String)
  | beginStep (channel : String)
  | put (channel : String)
  | get (channel : String)
  | endStep (channel : String)
  | closeChannel (channel : String)
  deriving DecidableEq, Repr

/-- Request-channel name on the consumer side: `"axis" + self._link`
(`access_api.py`, line 71). -/
def ADIOSData.axisChannelName (link : String) : String := "axis" ++ link

/-- Ack-channel name on the consumer side: `"axis_check" + self._link`
(`access_api.py`, line 88). -/
def ADIOSData.axisCheckChannelName (link : String) : String := "axis_check" ++ link

/-- Data-channel name on the consumer side: `self._link` (`access_api.py`,
line 101). -/
def ADIOSData.dataChannelName (link : String) : String := link

/-- Request-channel name on the producer side: `"axis" + self._link`
(`access_api.py`, line 179). -/
def ADIOSServer.axisChannelName (link : String) : String := "axis" ++ link

/-- Ack-channel name on the producer side: `"axis_check" + self._link`
(`access_api.py`, line 199). -/
def ADIOSServer.axisCheckChannelName (link : String) : String := "axis_check" ++ link

/-- Data-channel name on the producer side: `self._link` (`access_api.py`,
line 228). -/
def ADIOSServer.dataChannelName (link : String) : String := link

/-- The environment one `ADIOSData.__getitem__` call runs in: the value the
ack channel would deliver, whether `InquireVariable(axis)` on the data channel
returns a valid handle, that variable's shape, and the successive `BeginStep`
results the data channel would deliver (an exhausted list behaves as
`EndOfStream`). -/
structure ConsumerEnv where
  ackValue : Nat
  dataVarDeclared : Bool
  dataVarShape : List Nat
  dataSteps : List StepStatus
  deriving DecidableEq, Repr

/-- Embedding of the request-sending phase of `ADIOSData.__getitem__`
(`access_api.py`, lines 70–86): open `"axis" + link` for writing, define the
`"axis"` variable from the name's bytes, `BeginStep`, then
`axis_writer.Put(sendbuffer, data)`.  The name `data` is bound nowhere in the
method or module (the send buffer's content is the local `axis_as_bytes`), so
the `Put` call raises `NameError: data`; the `EndStep` and `Close` on
lines 85–86 are never executed. -/
def ADIOSData.sendAxisPhase (link _axis : String) : Except PyErr Unit × List CEv :=
  (Except.error (PyErr.nameError "data"),
   [CEv.openChannel (ADIOSData.axisChannelName link) Mode.Write,
    CEv.defineVariable "axis",
    CEv.beginStep (ADIOSData.axisChannelName link)])

/-- Embedding of the acknowledgment phase of `ADIOSData.__getitem__`
(`access_api.py`, lines 88–98): open `"axis_check" + link` for reading,
inquire the `"axis_check"` variable, `BeginStep`, `Get` one value, `EndStep`,
`Close`; then `if not received_axis[0]: raise KeyError(...)`.  A zero flag is
falsy, so it raises; any other value falls through. -/
def ADIOSData.checkAckPhase (env : ConsumerEnv) (link : String) :
    Except PyErr Unit × List CEv :=
  let ch := ADIOSData.axisCheckChannelName link
  let t := [CEv.openChannel ch Mode.Read, CEv.inquireVariable "axis_check",
            CEv.beginStep ch, CEv.get ch, CEv.endStep ch, CEv.closeChannel ch]
  if env.ackValue = 0 then
    (Except.error (PyErr.keyError "Axis not found in source file"), t)
  else
    (Except.ok (), t)

/-- Embedding of the `while` loop of `ADIOSData.__getitem__` (`access_api.py`,
lines 106–111):

`while (status := data_reader.BeginStep()) == adios2.StepStatus.OK:` —
each iteration consumes one entry of the step schedule (an exhausted schedule
delivers `EndOfStream`).  Inside the loop, `if data_in:` tests the inquiry
result obtained once before the loop (line 103); when it is truthy the body
runs `data_reader.Get(data_in, received_data, adios2.Mode.Sync)`, but the name
`received_data` is bound nowhere — line 104 bound `receveived_data` — so the
`Get` raises `NameError: received_data`.  When `data_in` is falsy the body
does nothing (no `Get`, no `EndStep`); the trailing
`if status == adios2.StepStatus.EndOfStream: break` only runs when
`status == OK`, so it never fires, and the loop is only left when `BeginStep`
returns a status other than `OK`. -/
def ADIOSData.streamLoop (dataVarTruthy : Bool) (steps : List StepStatus)
    (ch : String) : Except PyErr Unit × List CEv :=
  match steps with
  | [] => (Except.ok (), [CEv.beginStep ch])
  | s :: rest =>
    if s = StepStatus.OK then
      if dataVarTruthy then
        (Except.error (PyErr.nameError "received_data"), [CEv.beginStep ch])
      else
        let r := ADIOSData.streamLoop dataVarTruthy rest ch
        (r.1, CEv.beginStep ch :: r.2)
    else
      (Except.ok (), [CEv.beginStep ch])

/-- Embedding of the data-streaming phase of `ADIOSData.__getitem__`
(`access_api.py`, lines 100–115): open `link` for reading, inquire the
variable named by `axis`, allocate `receveived_data = np.zeros(data_in.Shape())`
(when the inquiry returned no valid handle, `.Shape()` fails), run the step
loop, `Close`, and `return received_data` — again a name bound nowhere, so
even a loop that exits cleanly ends in `NameError: received_data` and no
payload is ever returned. -/
def ADIOSData.streamDataPhase (env : ConsumerEnv) (link axis : String) :
    Except PyErr Payload × List CEv :=
  let ch := ADIOSData.dataChannelName link
  let t0 := [CEv.openChannel ch Mode.Read, CEv.inquireVariable axis]
  if env.dataVarDeclared = false then
    (Except.error (PyErr.attributeError "Shape"), t0)
  else
    let r := ADIOSData.streamLoop true env.dataSteps ch
    match r.1 with
    | Except.error e => (Except.error e, t0 ++ r.2)
    | Except.ok () =>
      (Except.error (PyErr.nameError "received_data"),
       t0 ++ r.2 ++ [CEv.closeChannel ch])

/-- Embedding of `ADIOSData.__getitem__` (`access_api.py`, lines 45–115): the
request-sending phase, then the acknowledgment phase, then the data-streaming
phase, each aborting the call when it raises. -/
def ADIOSData.getitem (env : ConsumerEnv) (link axis : String) :
    Except PyErr Payload × List CEv :=
  match ADIOSData.sendAxisPhase link axis with
  | (Except.error e, t1) => (Except.error e, t1)
  | (Except.ok (), t1) =>
    match ADIOSData.checkAckPhase env link with
    | (Except.error e, t2) => (Except.error e, t1 ++ t2)
    | (Except.ok (), t2) =>
      let r := ADIOSData.streamDataPhase env link axis
      (r.1, t1 ++ t2 ++ r.2)

/-- The producer's request-scoped state: `self._axis` and
`self._axis_received` (`access_api.py`, lines 142 and 145; both reset by
`_send_data`, lines 242–243, and by the `except KeyError` branch of
`_receive_axis`, lines 196–197). -/
structure ServerState where
  axisField : Option String
  axis_received : Bool
  deriving DecidableEq, Repr

/-- The initial producer state: the class attributes `_axis = None` and
`_axis_received = False`. -/
def ServerState.initial : ServerState := ⟨none, false⟩

/-- Embedding of `ADIOSServer._receive_axis` (`access_api.py`,
lines 171–208): open `"axis" + link` for reading, inquire `"axis"`,
`BeginStep`, `Get` the name's bytes, `EndStep`, `Close`.  The wire transfer is
abstracted: the model assumes the requested axis string is delivered intact
and that line 189 binds it to `self._axis`.  Line 190 then opens the HDF5
source as `hf5ile`, but line 191 indexes `h5file[self._axis]` — the name
`h5file` is bound nowhere in that scope — so the lookup raises
`NameError: h5file`, which `except KeyError` (line 195) does not catch.  The
acknowledgment block (lines 199–208) is never reached: no flag is ever put on
the `"axis_check" + link` channel, on either outcome. -/
def ADIOSServer.receive_axis (st : ServerState) (link requestedAxis : String) :
    Except PyErr Unit × List CEv × ServerState :=
  let ch := ADIOSServer.axisChannelName link
  (Except.error (PyErr.nameError "h5file"),
   [CEv.openChannel ch Mode.Read, CEv.inquireVariable "axis",
    CEv.beginStep ch, CEv.get ch, CEv.endStep ch, CEv.closeChannel ch],
   { st with axisField := some requestedAxis })

/-- Embedding of `ADIOSServer._send_data` (`access_api.py`, lines 210–243):
open `link` for writing, then `data = h5file[axis]` — the name `axis` is bound
nowhere in the method (the requested name is `self._axis`) — so it raises
`NameError: axis` before defining the variable or sending anything; the resets
`self._axis = None` and `self._axis_received = False` (lines 242–243) are
never reached. -/
def ADIOSServer.send_data (st : ServerState) (link : String) :
    Except PyErr Unit × List CEv × ServerState :=
  (Except.error (PyErr.nameError "axis"),
   [CEv.openChannel (ADIOSServer.dataChannelName link) Mode.Write], st)

/-- Embedding of `ADIOSServer.chill` (`access_api.py`, lines 245–257):
`while True: self._receive_axis(); if self._axis_received: self._send_data()`.
The `while True` loop is driven by the list of requests the peer will make;
the model stops the loop when no further request arrives.  An exception from
either call propagates and ends the loop. -/
def ADIOSServer.chill (st : ServerState) (link : String)
    (requests : List String) : Except PyErr Unit × List CEv × ServerState :=
  match requests with
  | [] => (Except.ok (), [], st)
  | a :: rest =>
    match ADIOSServer.receive_axis st link a with
    | (Except.error e, t, st1) => (Except.error e, t, st1)
    | (Except.ok (), t, st1) =>
      if st1.axis_received then
        match ADIOSServer.send_data st1 link with
        | (Except.error e, t2, st2) => (Except.error e, t ++ t2, st2)
        | (Except.ok (), t2, st2) =>
          let r := ADIOSServer.chill st2 link rest
          (r.1, t ++ t2 ++ r.2.1, r.2.2)
      else
        let r := ADIOSServer.chill st1 link rest
        (r.1, t ++ r.2.1, r.2.2)

/-! ### Concrete fixtures used by the claim theorems -/

/-- A concrete payload. -/
def payloadY : Payload := ⟨[7, 7, 7], [3]⟩

/-- A concrete payload distinct from `payloadY`. -/
def payloadX : Payload := ⟨[1, 2], [2]⟩

/-- An environment in which the notification POST succeeds with a JSON body
and the remote store holds payloads for `"x"` and `"y"`. -/
def okEnv : WandsEnv :=
  ⟨Except.ok ⟨200, some "ok"⟩, [("x", payloadX), ("y", payloadY)]⟩

/-- An environment in which `requests.post` raises (connection refused). -/
def postFailEnv : WandsEnv :=
  ⟨Except.error (PyErr.requestException "connection refused"), [("y", payloadY)]⟩

/-- The empty cache. -/
def emptyCache : DataCache := ⟨[]⟩

/-- A cache already holding `("f", "x")`. -/
def cacheWithX : DataCache := ⟨[(("f", "x"), payloadX)]⟩

/-! ### Claim theorems -/

/-- C1: the claim says `request(filename, names)` returns the merge of the
remotely fetched mapping and the locally loaded mapping, local winning on
collisions.  On the code this is false for every call: line 83 of `wands.py`,
`logger.debug(f"Timings: ... \x7btimecheckav-timereq\x7d ...")`, runs before
the `return` on line 87 and references the name `timecheckav`, which is only
ever mentioned inside comments, so every call raises `NameError` and the merge
`data_from_remote | data_from_cache` is never returned.  Evaluated here at a
concrete call that takes the remote path all the way to the write-back. -/
theorem c1_request_never_returns_merge :
    (Wands.request okEnv emptyCache "f" ["x"]).result
        = Except.error (PyErr.nameError "timecheckav") ∧
    WEv.cacheWrite "f" ∈ (Wands.request okEnv emptyCache "f" ["x"]).trace :=
  ⟨rfl, by decide⟩

/-- C2: the claim says a completed `request` call with a non-empty remote list
has written back everything it fetched, so a second identical call triggers no
new remote traffic.  On the code no call ever completes: every call ends in
`NameError: timecheckav` at the leftover performance-logging line 83.  The
write-back itself does happen before that line: after the first (failed) call
the cache holds the fetched payload, and a second call on the same names
performs no remote event at all — but it too raises instead of returning. -/
theorem c2_writeback_without_completion :
    (Wands.request okEnv emptyCache "f" ["y"]).result
        = Except.error (PyErr.nameError "timecheckav") ∧
    (Wands.request okEnv emptyCache "f" ["y"]).cache.lookup "f" "y" = some payloadY ∧
    ((Wands.request okEnv (Wands.request okEnv emptyCache "f" ["y"]).cache
        "f" ["y"]).trace.all (fun e => !e.isRemote)) = true ∧
    (Wands.request okEnv (Wands.request okEnv emptyCache "f" ["y"]).cache
        "f" ["y"]).result = Except.error (PyErr.nameError "timecheckav") :=
  ⟨rfl, rfl, by decide, rfl⟩

/-- C3: the claim says that for an absent axis the consumer cycle fails with
`AxisNotFound` (a `KeyError`) after reading a falsy acknowledgment flag, with
no data-channel activity.  On the code every `__getitem__` call fails with
`NameError: data` at `axis_writer.Put(sendbuffer, data)` (line 84, the send
buffer is the local `axis_as_bytes`), before the request is even sent: the ack
channel is never opened, no flag is read and the `KeyError` on line 98 is
unreachable.  Evaluated at a concrete call for an absent axis. -/
theorem c3_getitem_raises_before_negotiation :
    (ADIOSData.getitem ⟨0, false, [], []⟩ "conn1" "missing/axis").1
        = Except.error (PyErr.nameError "data") ∧
    (ADIOSData.getitem ⟨0, false, [], []⟩ "conn1" "missing/axis").2
        = [CEv.openChannel (ADIOSData.axisChannelName "conn1") Mode.Write,
           CEv.defineVariable "axis",
           CEv.beginStep (ADIOSData.axisChannelName "conn1")] :=
  ⟨rfl, rfl⟩

/-- C4: the claim says `_receive_axis` writes exactly one boolean
acknowledgment flag on both outcomes, true iff the name resolves in the source
store.  On the code the try block raises before the acknowledgment block:
line 190 binds the HDF5 file to `hf5ile` while line 191 indexes
`h5file[self._axis]`, so the lookup raises `NameError: h5file`, which
`except KeyError` does not catch, and lines 199–208 never run — no flag is
ever put on the ack channel, on either outcome.  Evaluated at a concrete
request: the trace holds the request-channel read cycle only. -/
theorem c4_receive_axis_writes_no_ack :
    (ADIOSServer.receive_axis ServerState.initial "conn1" "group/data").1
        = Except.error (PyErr.nameError "h5file") ∧
    (ADIOSServer.receive_axis ServerState.initial "conn1" "group/data").2.1
        = [CEv.openChannel (ADIOSServer.axisChannelName "conn1") Mode.Read,
           CEv.inquireVariable "axis",
           CEv.beginStep (ADIOSServer.axisChannelName "conn1"),
           CEv.get (ADIOSServer.axisChannelName "conn1"),
           CEv.endStep (ADIOSServer.axisChannelName "conn1"),
           CEv.closeChannel (ADIOSServer.axisChannelName "conn1")] :=
  ⟨rfl, rfl⟩

/-- C5: for every connection identifier the channel names used by the consumer
(`access_api.py`, lines 71, 88, 101) and by the producer (lines 179, 199, 228)
agree pairwise and follow the fixed concatenation scheme: request channel
`"axis" + connectionId`, ack channel `"axis_check" + connectionId`, data
channel `connectionId`. -/
theorem c5_channel_names_agree (link : String) :
    ADIOSData.axisChannelName link = ADIOSServer.axisChannelName link ∧
    ADIOSData.axisCheckChannelName link = ADIOSServer.axisCheckChannelName link ∧
    ADIOSData.dataChannelName link = ADIOSServer.dataChannelName link ∧
    ADIOSData.axisChannelName link = "axis" ++ link ∧
    ADIOSData.axisCheckChannelName link = "axis_check" ++ link ∧
    ADIOSData.dataChannelName link = link :=
  ⟨rfl, rfl, rfl, rfl, rfl, rfl⟩

/-- C6 counterexample: the claim says a failure of the population-notification
call does not abort the fetch — the remote fetch, write-back and merged return
still happen.  `requests.post` on line 73 of `wands.py` stands in no
try/except, so when the call raises (here: connection refused) the exception
propagates: no remote fetch, no write-back, no return. -/
theorem c6_notification_exception_aborts_fetch :
    (Wands.request postFailEnv emptyCache "f" ["y"]).result
        = Except.error (PyErr.requestException "connection refused") ∧
    WEv.wanReceive ["y"] ∉ (Wands.request postFailEnv emptyCache "f" ["y"]).trace ∧
    WEv.cacheWrite "f" ∉ (Wands.request postFailEnv emptyCache "f" ["y"]).trace ∧
    (Wands.request postFailEnv emptyCache "f" ["y"]).cache = emptyCache :=
  ⟨rfl, by decide, by decide, rfl⟩

/-- C6 as amended: when the notification call returns a response (any status
code) whose body parses as JSON, the fetch is not aborted — the remote fetch
and the cache write-back still happen; but an exception raised by the call
propagates and aborts the fetch, and the merged return is unreachable either
way (every call ends in `NameError: timecheckav` at the leftover debug line). -/
theorem c6_notification_response_does_not_abort (env : WandsEnv)
    (cache : DataCache) (filename : String) (data_list : List String)
    (r : Response) (j : String) (hpost : env.postResult = Except.ok r)
    (hjson : r.jsonBody = some j)
    (hremote : (cache.check_availability filename data_list).1.isEmpty = false) :
    WEv.wanReceive (cache.check_availability filename data_list).1
        ∈ (Wands.request env cache filename data_list).trace ∧
    WEv.cacheWrite filename ∈ (Wands.request env cache filename data_list).trace ∧
    (Wands.request env cache filename data_list).cache
        = cache.write filename (WandsWAN.receive env.remoteStore
            (cache.check_availability filename data_list).1) := by
  simp only [Wands.request, hremote, hpost, hjson]
  simp [List.mem_append]

/-- C6 amended, at a concrete input: the POST returns status 200 with a JSON
body, the remote list is `["y"]`, and the fetch and write-back happen. -/
theorem c6_notification_response_witness :
    WEv.wanReceive ((emptyCache.check_availability "f" ["y"]).1)
        ∈ (Wands.request okEnv emptyCache "f" ["y"]).trace ∧
    WEv.cacheWrite "f" ∈ (Wands.request okEnv emptyCache "f" ["y"]).trace ∧
    (Wands.request okEnv emptyCache "f" ["y"]).cache
        = emptyCache.write "f" (WandsWAN.receive okEnv.remoteStore
            ((emptyCache.check_availability "f" ["y"]).1)) :=
  c6_notification_response_does_not_abort okEnv emptyCache "f" ["y"]
    ⟨200, some "ok"⟩ "ok" rfl rfl rfl

/-- C7: the claim says the consumer's streaming loop terminates cleanly,
ends every step in which it reads data, and materializes exactly one payload,
tolerating declaration and data in separate steps.  On the code the loop never
materializes a payload: line 104 binds `receveived_data` while the `Get` on
line 108 and the `return` on line 115 reference `received_data`, a name bound
nowhere — so the first `OK` step with a declared variable raises
`NameError: received_data` inside the loop, and a stream that ends without
data raises the same `NameError` at the `return`.  Evaluated on both
schedules. -/
theorem c7_stream_loop_never_materializes_payload :
    (ADIOSData.streamDataPhase ⟨1, true, [3], [StepStatus.OK]⟩ "conn1" "a").1
        = Except.error (PyErr.nameError "received_data") ∧
    (ADIOSData.streamDataPhase ⟨1, true, [3], [StepStatus.EndOfStream]⟩
        "conn1" "a").1 = Except.error (PyErr.nameError "received_data") :=
  ⟨rfl, rfl⟩

/-- C8: the claim says the serve loop `chill` starts every cycle with the
request-scoped state reset and reads a new request only once the previous
cycle fully completes.  On the code the first cycle never completes:
`_receive_axis` raises `NameError: h5file` before acknowledging, so the loop
dies during cycle one — the request channel is opened exactly once (the second
pending request is never read), `self._axis` is left set to the received name
(never reset), and `_send_data` (which itself references the unbound name
`axis` on line 231) is never reached. -/
theorem c8_serve_loop_dies_in_first_cycle :
    (ADIOSServer.chill ServerState.initial "conn1" ["a", "b"]).1
        = Except.error (PyErr.nameError "h5file") ∧
    ((ADIOSServer.chill ServerState.initial "conn1" ["a", "b"]).2.1.count
        (CEv.openChannel (ADIOSServer.axisChannelName "conn1") Mode.Read)) = 1 ∧
    (ADIOSServer.chill ServerState.initial "conn1" ["a", "b"]).2.2
        = ⟨some "a", false⟩ :=
  ⟨rfl, by decide, rfl⟩

/-- C9: the claim says that when the availability check returns an empty
remote list, no notification POST, no remote-fetch construction and no cache
write occur, and the returned mapping is exactly the locally loaded one.  On
the code the frame part holds — the trace of such a call has no remote event
and the cache is untouched — but the call returns nothing: it raises
`NameError: timecheckav` at the leftover debug line instead of returning the
local mapping.  Evaluated at a call whose single name is already cached. -/
theorem c9_local_only_frame_holds_but_raises :
    ((Wands.request okEnv cacheWithX "f" ["x"]).trace.all
        (fun e => !e.isRemote)) = true ∧
    (Wands.request okEnv cacheWithX "f" ["x"]).cache = cacheWithX ∧
    (Wands.request okEnv cacheWithX "f" ["x"]).result
        = Except.error (PyErr.nameError "timecheckav") :=
  ⟨by decide, rfl, rfl⟩

/-- C10: the claim says that on the not-found path both the request channel
and the ack channel are closed, their steps ended, before the `KeyError`
propagates.  On the code no call ever reaches the not-found path: the `Put` on
line 84 raises `NameError: data` inside the request channel's step, so the
request channel's `EndStep` and `Close` (lines 85–86) never run — the handle
opened by the cycle is still open when the error propagates, the ack channel
is never opened, and the `KeyError` on line 98 is unreachable. -/
theorem c10_request_channel_left_open :
    (ADIOSData.getitem ⟨0, false, [], []⟩ "conn1" "some/axis").1
        = Except.error (PyErr.nameError "data") ∧
    CEv.openChannel (ADIOSData.axisChannelName "conn1") Mode.Write
        ∈ (ADIOSData.getitem ⟨0, false, [], []⟩ "conn1" "some/axis").2 ∧
    CEv.endStep (ADIOSData.axisChannelName "conn1")
        ∉ (ADIOSData.getitem ⟨0, false, [], []⟩ "conn1" "some/axis").2 ∧
    CEv.closeChannel (ADIOSData.axisChannelName "conn1")
        ∉ (ADIOSData.getitem ⟨0, false, [], []⟩ "conn1" "some/axis").2 :=
  ⟨rfl, by decide, by decide, by decide⟩

end AdiosNetwork
